import Mathlib

/-!
Shallow embedding of `src/native-bindings/webrtc_binding.cc`.

The binding layer marshals dynamically-typed host values into plain
record objects.  Host (JavaScript) values are modelled by `JSValue`;
an object is a finite list of named fields.  A callback's argument
vector (`Napi::CallbackInfo`) is a `List JSValue`, and indexing past
the end yields `undefined`, as in N-API.
-/

namespace WebRTCBinding

/-- Dynamically-typed host value.  Numbers are modelled by `Int`: the
binding only copies numeric values and never computes with them, so the
exact numeric carrier is irrelevant to its behaviour. -/
inductive JSValue where
  | undefined : JSValue
  | null : JSValue
  | boolean : Bool → JSValue
  | number : Int → JSValue
  | string : String → JSValue
  | object : List (String × JSValue) → JSValue

/-- The field list of an object. -/
abbrev JSFields := List (String × JSValue)

/-- `Napi::Value::IsObject`. -/
def JSValue.isObject : JSValue → Bool
  | .object _ => true
  | _ => false

/-- The field list underlying a value (`As<Napi::Object>`); only ever
used under an `isObject` guard, other values expose no fields. -/
def JSValue.fields : JSValue → JSFields
  | .object fs => fs
  | _ => []

/-- `info[i]`: N-API yields `undefined` for an out-of-range index. -/
def argAt (info : List JSValue) (i : Nat) : JSValue :=
  info.getD i JSValue.undefined

/-- `Object::Has(key)`. -/
def objHas {α : Type} (fields : List (String × α)) (k : String) : Bool :=
  fields.any (fun p => p.1 == k)

/-- First binding of a key, if any. -/
def lookupField {α : Type} (fields : List (String × α)) (k : String) : Option α :=
  (fields.find? (fun p => p.1 == k)).map (fun p => p.2)

/-- `Object::Get(key)`: an absent property reads as `undefined`. -/
def objGet (fields : JSFields) (k : String) : JSValue :=
  (lookupField fields k).getD JSValue.undefined

/-- `Object::Set(key, v)`: overwrite the binding if the key is present,
otherwise append it (JavaScript objects keep insertion order). -/
def objSet {α : Type} (fields : List (String × α)) (k : String) (v : α) :
    List (String × α) :=
  match fields with
  | [] => [(k, v)]
  | p :: rest => if p.1 == k then (k, v) :: rest else p :: objSet rest k v

/-- `CreateRTCSessionDescription` (exported as `RTCSessionDescription`):
builds a fresh object, and when the first argument is an object copies
its `type` and `sdp` fields if present. -/
def CreateRTCSessionDescription (info : List JSValue) : JSFields :=
  let obj : JSFields := []
  if info.length > 0 && (argAt info 0).isObject then
    let init := (argAt info 0).fields
    let obj := if objHas init "type" then objSet obj "type" (objGet init "type") else obj
    let obj := if objHas init "sdp" then objSet obj "sdp" (objGet init "sdp") else obj
    obj
  else
    obj

/-- `CreateRTCIceCandidate` (exported as `RTCIceCandidate`): builds a
fresh object, and when the first argument is an object copies its
`candidate`, `sdpMLineIndex` and `sdpMid` fields if present. -/
def CreateRTCIceCandidate (info : List JSValue) : JSFields :=
  let obj : JSFields := []
  if info.length > 0 && (argAt info 0).isObject then
    let init := (argAt info 0).fields
    let obj := if objHas init "candidate" then objSet obj "candidate" (objGet init "candidate") else obj
    let obj := if objHas init "sdpMLineIndex" then objSet obj "sdpMLineIndex" (objGet init "sdpMLineIndex") else obj
    let obj := if objHas init "sdpMid" then objSet obj "sdpMid" (objGet init "sdpMid") else obj
    obj
  else
    obj

/-- Modelled from the spec: `PeerConnection::NewInstance` (declared in
`peer_connection.h`, which is not among the visible sources) is the
native engine's connection factory.  The spec treats it as an opaque
external collaborator, so it is a parameter: it may return a handle or
raise, modelled by `Except`.  `CreateRTCPeerConnection` (exported as
`RTCPeerConnection`) forwards its first argument to it and returns the
result unchanged. -/
def CreateRTCPeerConnection {ε ρ : Type} (newInstance : JSValue → Except ε ρ)
    (info : List JSValue) : Except ε ρ :=
  newInstance (argAt info 0)

/-- An entry of the module's export table. -/
inductive ExportEntry where
  | descriptorFactory : (List JSValue → JSFields) → ExportEntry
  | connectionFactory : ExportEntry
  | constString : String → ExportEntry
  | constBoolean : Bool → ExportEntry

/-- The module export table. -/
abbrev Exports := List (String × ExportEntry)

/-- `Init`: module initialization.  `PeerConnection::Init` is modelled
from the spec as an opaque registration step (`pcInit`) transforming the
export table; afterwards the three factories and the two constants are
attached. -/
def Init (pcInit : Exports → Exports) (exports : Exports) : Exports :=
  let exports := pcInit exports
  let exports := objSet exports "RTCPeerConnection" ExportEntry.connectionFactory
  let exports := objSet exports "RTCSessionDescription"
    (ExportEntry.descriptorFactory CreateRTCSessionDescription)
  let exports := objSet exports "RTCIceCandidate"
    (ExportEntry.descriptorFactory CreateRTCIceCandidate)
  let exports := objSet exports "version" (ExportEntry.constString "1.0.0")
  let exports := objSet exports "isNativeImplementation" (ExportEntry.constBoolean true)
  exports

/-! ### Basic lemmas about the object operations -/

theorem lookupField_objSet {α : Type} (fs : List (String × α)) (k q : String) (v : α) :
    lookupField (objSet fs k v) q = if q = k then some v else lookupField fs q := by
  induction fs with
  | nil =>
    by_cases h : q = k
    · simp [objSet, lookupField, h]
    · have hk : (k == q) = false := beq_false_of_ne (fun hh => h hh.symm)
      simp [objSet, lookupField, h, hk, List.find?]
  | cons p fs ih =>
    by_cases hpk : p.1 = k
    · have hb : (p.1 == k) = true := beq_iff_eq.mpr hpk
      by_cases hq : q = k
      · simp [objSet, lookupField, hb, hq, List.find?]
      · have hk : (k == q) = false := beq_false_of_ne (fun hh => hq hh.symm)
        have hp : (p.1 == q) = false := by rw [hpk]; exact hk
        simp [objSet, lookupField, hb, hq, hk, hp, List.find?]
    · have hb : (p.1 == k) = false := beq_false_of_ne hpk
      by_cases hqp : q = p.1
      · have hq : ¬ q = k := fun h => hpk (hqp ▸ h)
        have hp : (p.1 == q) = true := beq_iff_eq.mpr hqp.symm
        simp [objSet, lookupField, hb, hq, hp, List.find?]
      · have hp : (p.1 == q) = false := beq_false_of_ne (fun hh => hqp hh.symm)
        by_cases hq : q = k <;>
          simp [objSet, lookupField, hb, hp, hq, List.find?] at ih ⊢ <;>
            exact ih

theorem objHas_eq_isSome_lookupField {α : Type} (fs : List (String × α)) (k : String) :
    objHas fs k = (lookupField fs k).isSome := by
  induction fs with
  | nil => simp [objHas, lookupField]
  | cons p fs ih =>
    by_cases h : p.1 = k
    · have hb : (p.1 == k) = true := beq_iff_eq.mpr h
      simp [objHas, lookupField, hb, List.find?]
    · have hb : (p.1 == k) = false := beq_false_of_ne h
      simp [objHas, lookupField, hb, List.find?] at ih ⊢
      exact ih

/-- A factory call whose first argument is not an object (in particular an
empty argument vector, where `info[0]` is `undefined`) returns the fresh
empty object. -/
theorem sessionDescription_of_not_object (info : List JSValue)
    (h : (argAt info 0).isObject = false) :
    CreateRTCSessionDescription info = [] := by
  simp [CreateRTCSessionDescription, h]

theorem iceCandidate_of_not_object (info : List JSValue)
    (h : (argAt info 0).isObject = false) :
    CreateRTCIceCandidate info = [] := by
  simp [CreateRTCIceCandidate, h]

/-- Normal form of `CreateRTCSessionDescription` when the first argument
is an object: the recognized fields that are present, in source order. -/
theorem sessionDescription_cons_object (init : JSFields) (rest : List JSValue) :
    CreateRTCSessionDescription (JSValue.object init :: rest) =
      (if objHas init "type" then [("type", objGet init "type")] else []) ++
      (if objHas init "sdp" then [("sdp", objGet init "sdp")] else []) := by
  by_cases hT : objHas init "type" <;> by_cases hS : objHas init "sdp" <;>
    simp [CreateRTCSessionDescription, argAt, JSValue.isObject, JSValue.fields,
      objSet, hT, hS]

/-- Normal form of `CreateRTCIceCandidate` when the first argument is an
object: the recognized fields that are present, in source order. -/
theorem iceCandidate_cons_object (init : JSFields) (rest : List JSValue) :
    CreateRTCIceCandidate (JSValue.object init :: rest) =
      (if objHas init "candidate" then [("candidate", objGet init "candidate")] else []) ++
      (if objHas init "sdpMLineIndex" then [("sdpMLineIndex", objGet init "sdpMLineIndex")] else []) ++
      (if objHas init "sdpMid" then [("sdpMid", objGet init "sdpMid")] else []) := by
  by_cases hC : objHas init "candidate" <;>
    by_cases hI : objHas init "sdpMLineIndex" <;>
      by_cases hM : objHas init "sdpMid" <;>
        simp [CreateRTCIceCandidate, argAt, JSValue.isObject, JSValue.fields,
          objSet, hC, hI, hM]

theorem objHas_iff_exists_mem {α : Type} (fs : List (String × α)) (k : String) :
    objHas fs k = true ↔ ∃ v, (k, v) ∈ fs := by
  induction fs with
  | nil => simp [objHas]
  | cons p fs ih =>
    obtain ⟨pk, pv⟩ := p
    simp only [objHas, List.any_cons, Bool.or_eq_true, List.mem_cons] at ih ⊢
    constructor
    · rintro (h | h)
      · exact ⟨pv, Or.inl (by rw [beq_iff_eq] at h; rw [h])⟩
      · obtain ⟨v, hv⟩ := ih.mp h
        exact ⟨v, Or.inr hv⟩
    · rintro ⟨v, h | h⟩
      · injection h with h1 h2
        exact Or.inl (by rw [beq_iff_eq]; exact h1.symm)
      · exact Or.inr (ih.mpr ⟨v, h⟩)

/-- Full characterization of the fields of a session-description record:
exactly the recognized fields present on the first argument, with the
input's values. -/
theorem mem_sessionDescription (info : List JSValue) (k : String) (v : JSValue) :
    (k, v) ∈ CreateRTCSessionDescription info ↔
      ((argAt info 0).isObject = true ∧ (k = "type" ∨ k = "sdp") ∧
        objHas (argAt info 0).fields k = true ∧ v = objGet (argAt info 0).fields k) := by
  cases info with
  | nil => simp [CreateRTCSessionDescription, argAt, JSValue.isObject]
  | cons a rest =>
    cases a with
    | object init =>
      rw [sessionDescription_cons_object]
      by_cases hT : objHas init "type" = true <;>
        by_cases hS : objHas init "sdp" = true <;>
          by_cases hkT : k = "type" <;> by_cases hkS : k = "sdp" <;>
            simp_all [argAt, JSValue.isObject, JSValue.fields]
    | undefined => simp [CreateRTCSessionDescription, argAt, JSValue.isObject]
    | null => simp [CreateRTCSessionDescription, argAt, JSValue.isObject]
    | boolean b => simp [CreateRTCSessionDescription, argAt, JSValue.isObject]
    | number n => simp [CreateRTCSessionDescription, argAt, JSValue.isObject]
    | string s => simp [CreateRTCSessionDescription, argAt, JSValue.isObject]

/-- Full characterization of the fields of an ICE-candidate record. -/
theorem mem_iceCandidate (info : List JSValue) (k : String) (v : JSValue) :
    (k, v) ∈ CreateRTCIceCandidate info ↔
      ((argAt info 0).isObject = true ∧
        (k = "candidate" ∨ k = "sdpMLineIndex" ∨ k = "sdpMid") ∧
        objHas (argAt info 0).fields k = true ∧ v = objGet (argAt info 0).fields k) := by
  cases info with
  | nil => simp [CreateRTCIceCandidate, argAt, JSValue.isObject]
  | cons a rest =>
    cases a with
    | object init =>
      rw [iceCandidate_cons_object]
      by_cases hC : objHas init "candidate" = true <;>
        by_cases hI : objHas init "sdpMLineIndex" = true <;>
          by_cases hM : objHas init "sdpMid" = true <;>
            by_cases hkC : k = "candidate" <;>
              by_cases hkI : k = "sdpMLineIndex" <;>
                by_cases hkM : k = "sdpMid" <;>
                  simp_all [argAt, JSValue.isObject, JSValue.fields]
    | undefined => simp [CreateRTCIceCandidate, argAt, JSValue.isObject]
    | null => simp [CreateRTCIceCandidate, argAt, JSValue.isObject]
    | boolean b => simp [CreateRTCIceCandidate, argAt, JSValue.isObject]
    | number n => simp [CreateRTCIceCandidate, argAt, JSValue.isObject]
    | string s => simp [CreateRTCIceCandidate, argAt, JSValue.isObject]

/-! ### Claims -/

/-- C1: for every input object `init` that has a `type` field and no `sdp`
field, `createSessionDescription(init)` returns a record whose `type` field
equals the input's `type` value and which has no `sdp` field (indeed the
record is exactly the one-field record carrying the input's `type`). -/
theorem claim_C1_sessionDescription_copies_type_drops_sdp (init : JSFields)
    (hT : objHas init "type" = true) (hS : objHas init "sdp" = false) :
    objGet (CreateRTCSessionDescription [JSValue.object init]) "type" = objGet init "type" ∧
    objHas (CreateRTCSessionDescription [JSValue.object init]) "sdp" = false ∧
    CreateRTCSessionDescription [JSValue.object init] = [("type", objGet init "type")] := by
  have h := sessionDescription_cons_object init []
  simp [hT, hS] at h
  refine ⟨?_, ?_, h⟩
  · rw [h]; rfl
  · rw [h]; rfl

/-- Witness for C1 at the concrete input `{type: "offer", x: 7}`. -/
theorem claim_C1_witness :
    objHas ([("type", JSValue.string "offer"), ("x", JSValue.number 7)] : JSFields) "type" = true ∧
    objHas ([("type", JSValue.string "offer"), ("x", JSValue.number 7)] : JSFields) "sdp" = false ∧
    (objGet (CreateRTCSessionDescription
        [JSValue.object [("type", JSValue.string "offer"), ("x", JSValue.number 7)]]) "type" =
      objGet [("type", JSValue.string "offer"), ("x", JSValue.number 7)] "type" ∧
     objHas (CreateRTCSessionDescription
        [JSValue.object [("type", JSValue.string "offer"), ("x", JSValue.number 7)]]) "sdp" = false ∧
     CreateRTCSessionDescription
        [JSValue.object [("type", JSValue.string "offer"), ("x", JSValue.number 7)]] =
       [("type", objGet [("type", JSValue.string "offer"), ("x", JSValue.number 7)] "type")]) :=
  ⟨rfl, rfl, claim_C1_sessionDescription_copies_type_drops_sdp _ rfl rfl⟩

/-- C2: `createSessionDescription` returns an empty record whenever its
argument is omitted, is not an object, or is an object with neither `type`
nor `sdp`; the no-argument call and the empty-object call agree. -/
theorem claim_C2_sessionDescription_empty_record (v : JSValue) (init : JSFields)
    (hv : v.isObject = false)
    (hT : objHas init "type" = false) (hS : objHas init "sdp" = false) :
    CreateRTCSessionDescription [] = [] ∧
    CreateRTCSessionDescription [v] = [] ∧
    CreateRTCSessionDescription [JSValue.object init] = [] ∧
    CreateRTCSessionDescription [] = CreateRTCSessionDescription [JSValue.object []] := by
  refine ⟨rfl, ?_, ?_, rfl⟩
  · exact sessionDescription_of_not_object [v] (by simpa [argAt] using hv)
  · have h := sessionDescription_cons_object init []
    simpa [hT, hS] using h

/-- Witness for C2 at the concrete non-object `3` and object `{foo: null}`. -/
theorem claim_C2_witness :
    (JSValue.number 3).isObject = false ∧
    objHas ([("foo", JSValue.null)] : JSFields) "type" = false ∧
    objHas ([("foo", JSValue.null)] : JSFields) "sdp" = false ∧
    (CreateRTCSessionDescription [] = [] ∧
     CreateRTCSessionDescription [JSValue.number 3] = [] ∧
     CreateRTCSessionDescription [JSValue.object [("foo", JSValue.null)]] = [] ∧
     CreateRTCSessionDescription [] = CreateRTCSessionDescription [JSValue.object []]) :=
  ⟨rfl, rfl, rfl,
    claim_C2_sessionDescription_empty_record (JSValue.number 3) [("foo", JSValue.null)] rfl rfl rfl⟩

/-- C3: for every input object `init` with `candidate`, `sdpMLineIndex` and
`sdpMid` all present, `createIceCandidate(init)` returns a record with all
three fields copied exactly (the values, hence their dynamic types, are
preserved verbatim). -/
theorem claim_C3_iceCandidate_copies_all_three (init : JSFields)
    (hC : objHas init "candidate" = true)
    (hI : objHas init "sdpMLineIndex" = true)
    (hM : objHas init "sdpMid" = true) :
    CreateRTCIceCandidate [JSValue.object init] =
      [("candidate", objGet init "candidate"),
       ("sdpMLineIndex", objGet init "sdpMLineIndex"),
       ("sdpMid", objGet init "sdpMid")] := by
  have h := iceCandidate_cons_object init []
  simpa [hC, hI, hM] using h

/-- Witness for C3: a string candidate, a numeric media-line index and a
string media id are each copied with their dynamic type intact. -/
theorem claim_C3_witness :
    objHas ([("candidate", JSValue.string "cand"), ("sdpMLineIndex", JSValue.number 0),
        ("sdpMid", JSValue.string "0")] : JSFields) "candidate" = true ∧
    objHas ([("candidate", JSValue.string "cand"), ("sdpMLineIndex", JSValue.number 0),
        ("sdpMid", JSValue.string "0")] : JSFields) "sdpMLineIndex" = true ∧
    objHas ([("candidate", JSValue.string "cand"), ("sdpMLineIndex", JSValue.number 0),
        ("sdpMid", JSValue.string "0")] : JSFields) "sdpMid" = true ∧
    CreateRTCIceCandidate [JSValue.object
        [("candidate", JSValue.string "cand"), ("sdpMLineIndex", JSValue.number 0),
         ("sdpMid", JSValue.string "0")]] =
      [("candidate", objGet [("candidate", JSValue.string "cand"),
          ("sdpMLineIndex", JSValue.number 0), ("sdpMid", JSValue.string "0")] "candidate"),
       ("sdpMLineIndex", objGet [("candidate", JSValue.string "cand"),
          ("sdpMLineIndex", JSValue.number 0), ("sdpMid", JSValue.string "0")] "sdpMLineIndex"),
       ("sdpMid", objGet [("candidate", JSValue.string "cand"),
          ("sdpMLineIndex", JSValue.number 0), ("sdpMid", JSValue.string "0")] "sdpMid")] :=
  ⟨rfl, rfl, rfl, claim_C3_iceCandidate_copies_all_three _ rfl rfl rfl⟩

/-- C4: for every input to either descriptor factory, any field other than
the recognized ones (`type`/`sdp` for session descriptions,
`candidate`/`sdpMLineIndex`/`sdpMid` for ICE candidates) never appears on
the returned record — unrecognized fields are silently dropped. -/
theorem claim_C4_unrecognized_fields_dropped (info : List JSValue) (k : String) :
    (k ≠ "type" → k ≠ "sdp" → objHas (CreateRTCSessionDescription info) k = false) ∧
    (k ≠ "candidate" → k ≠ "sdpMLineIndex" → k ≠ "sdpMid" →
      objHas (CreateRTCIceCandidate info) k = false) := by
  constructor
  · intro h1 h2
    cases hb : objHas (CreateRTCSessionDescription info) k with
    | false => rfl
    | true =>
      exfalso
      obtain ⟨v, hv⟩ := (objHas_iff_exists_mem _ _).mp hb
      rcases (mem_sessionDescription info k v).mp hv with ⟨-, hk, -, -⟩
      rcases hk with rfl | rfl
      · exact h1 rfl
      · exact h2 rfl
  · intro h1 h2 h3
    cases hb : objHas (CreateRTCIceCandidate info) k with
    | false => rfl
    | true =>
      exfalso
      obtain ⟨v, hv⟩ := (objHas_iff_exists_mem _ _).mp hb
      rcases (mem_iceCandidate info k v).mp hv with ⟨-, hk, -, -⟩
      rcases hk with rfl | rfl | rfl
      · exact h1 rfl
      · exact h2 rfl
      · exact h3 rfl

/-- Witness for C4: the unrecognized field `extra` is dropped by both
factories at a concrete input carrying it. -/
theorem claim_C4_witness :
    objHas (CreateRTCSessionDescription
      [JSValue.object [("type", JSValue.string "offer"), ("extra", JSValue.number 1)]])
      "extra" = false ∧
    objHas (CreateRTCIceCandidate
      [JSValue.object [("type", JSValue.string "offer"), ("extra", JSValue.number 1)]])
      "extra" = false :=
  ⟨(claim_C4_unrecognized_fields_dropped
      [JSValue.object [("type", JSValue.string "offer"), ("extra", JSValue.number 1)]]
      "extra").1 (by decide) (by decide),
   (claim_C4_unrecognized_fields_dropped
      [JSValue.object [("type", JSValue.string "offer"), ("extra", JSValue.number 1)]]
      "extra").2 (by decide) (by decide) (by decide)⟩

/-- C5: for both factories, field presence is preserved exactly: a field
absent on the input is absent on the output record, never fabricated;
in particular the spec's concrete scenario — an ICE candidate init with
`candidate` and `sdpMid` but no `sdpMLineIndex` — yields exactly that
two-field record and no `sdpMLineIndex` field. -/
theorem claim_C5_presence_preserved (initS initI : JSFields) (k : String)
    (hS : objHas initS k = false) (hI : objHas initI k = false) :
    objHas (CreateRTCSessionDescription [JSValue.object initS]) k = false ∧
    objHas (CreateRTCIceCandidate [JSValue.object initI]) k = false ∧
    CreateRTCIceCandidate [JSValue.object
        [("candidate", JSValue.string "candidate:1 1 UDP 2122260223 10.0.0.1 54321 typ host"),
         ("sdpMid", JSValue.string "0")]] =
      [("candidate", JSValue.string "candidate:1 1 UDP 2122260223 10.0.0.1 54321 typ host"),
       ("sdpMid", JSValue.string "0")] ∧
    objHas (CreateRTCIceCandidate [JSValue.object
        [("candidate", JSValue.string "candidate:1 1 UDP 2122260223 10.0.0.1 54321 typ host"),
         ("sdpMid", JSValue.string "0")]]) "sdpMLineIndex" = false := by
  refine ⟨?_, ?_, rfl, rfl⟩
  · cases hb : objHas (CreateRTCSessionDescription [JSValue.object initS]) k with
    | false => rfl
    | true =>
      exfalso
      obtain ⟨v, hv⟩ := (objHas_iff_exists_mem _ _).mp hb
      rcases (mem_sessionDescription _ k v).mp hv with ⟨-, -, hhas, -⟩
      simp [argAt, JSValue.fields, hS] at hhas
  · cases hb : objHas (CreateRTCIceCandidate [JSValue.object initI]) k with
    | false => rfl
    | true =>
      exfalso
      obtain ⟨v, hv⟩ := (objHas_iff_exists_mem _ _).mp hb
      rcases (mem_iceCandidate _ k v).mp hv with ⟨-, -, hhas, -⟩
      simp [argAt, JSValue.fields, hI] at hhas

/-- Witness for C5: `type` is absent on both concrete inputs and on both
outputs. -/
theorem claim_C5_witness :
    objHas ([("sdp", JSValue.string "v=0")] : JSFields) "type" = false ∧
    objHas ([("candidate", JSValue.string "c")] : JSFields) "type" = false ∧
    (objHas (CreateRTCSessionDescription
        [JSValue.object [("sdp", JSValue.string "v=0")]]) "type" = false ∧
     objHas (CreateRTCIceCandidate
        [JSValue.object [("candidate", JSValue.string "c")]]) "type" = false ∧
     CreateRTCIceCandidate [JSValue.object
        [("candidate", JSValue.string "candidate:1 1 UDP 2122260223 10.0.0.1 54321 typ host"),
         ("sdpMid", JSValue.string "0")]] =
      [("candidate", JSValue.string "candidate:1 1 UDP 2122260223 10.0.0.1 54321 typ host"),
       ("sdpMid", JSValue.string "0")] ∧
     objHas (CreateRTCIceCandidate [JSValue.object
        [("candidate", JSValue.string "candidate:1 1 UDP 2122260223 10.0.0.1 54321 typ host"),
         ("sdpMid", JSValue.string "0")]]) "sdpMLineIndex" = false) :=
  ⟨rfl, rfl,
   claim_C5_presence_preserved [("sdp", JSValue.string "v=0")]
     [("candidate", JSValue.string "c")] "type" rfl rfl⟩

/-- C6: after module initialization, the exported `version` constant is
exactly the string `"1.0.0"` and the exported `isNativeImplementation`
constant is exactly the boolean `true` — for every module load, i.e. for
every prior export-table state and every behaviour of the opaque
`PeerConnection::Init` registration step. -/
theorem claim_C6_constant_exports (pcInit : Exports → Exports) (exports : Exports) :
    lookupField (Init pcInit exports) "version" = some (ExportEntry.constString "1.0.0") ∧
    lookupField (Init pcInit exports) "isNativeImplementation" =
      some (ExportEntry.constBoolean true) := by
  constructor
  · simp [Init, lookupField_objSet]
  · simp [Init, lookupField_objSet]

/-- C7: the two descriptor factories are total on every argument vector
(the embedding returns a record for every input, never an error value),
and the record they return is always an empty or partial record: each of
its bindings is a recognized field carrying the input's value — malformed
or missing input merely leaves fields absent. -/
theorem claim_C7_factories_never_raise (info : List JSValue) (k : String) (v : JSValue) :
    ((k, v) ∈ CreateRTCSessionDescription info →
      (k = "type" ∨ k = "sdp") ∧ v = objGet (argAt info 0).fields k) ∧
    ((k, v) ∈ CreateRTCIceCandidate info →
      (k = "candidate" ∨ k = "sdpMLineIndex" ∨ k = "sdpMid") ∧
      v = objGet (argAt info 0).fields k) := by
  constructor
  · intro h
    rcases (mem_sessionDescription info k v).mp h with ⟨-, hk, -, hv⟩
    exact ⟨hk, hv⟩
  · intro h
    rcases (mem_iceCandidate info k v).mp h with ⟨-, hk, -, hv⟩
    exact ⟨hk, hv⟩

/-- Witness for C7 at concrete one-field inputs. -/
theorem claim_C7_witness :
    (("type" = "type" ∨ "type" = "sdp") ∧
      JSValue.string "offer" =
        objGet (argAt [JSValue.object [("type", JSValue.string "offer")]] 0).fields "type") ∧
    (("sdpMid" = "candidate" ∨ "sdpMid" = "sdpMLineIndex" ∨ "sdpMid" = "sdpMid") ∧
      JSValue.string "0" =
        objGet (argAt [JSValue.object [("sdpMid", JSValue.string "0")]] 0).fields "sdpMid") :=
  ⟨(claim_C7_factories_never_raise [JSValue.object [("type", JSValue.string "offer")]]
      "type" (JSValue.string "offer")).1 (List.Mem.head _),
   (claim_C7_factories_never_raise [JSValue.object [("sdpMid", JSValue.string "0")]]
      "sdpMid" (JSValue.string "0")).2 (List.Mem.head _)⟩

/-- C8: `createPeerConnection` passes its first argument unmodified to the
native engine's connection factory and returns exactly what that factory
returns; in particular a failure raised by the factory propagates
unchanged, with no wrapping or translation added by this layer. -/
theorem claim_C8_peerConnection_delegates {ε ρ : Type}
    (newInstance : JSValue → Except ε ρ) (info : List JSValue) (e : ε) :
    CreateRTCPeerConnection newInstance info = newInstance (argAt info 0) ∧
    (newInstance (argAt info 0) = Except.error e →
      CreateRTCPeerConnection newInstance info = Except.error e) :=
  ⟨rfl, fun h => h⟩

/-- Witness for C8: a factory that always raises has its error propagated
verbatim through the no-argument call. -/
theorem claim_C8_witness :
    CreateRTCPeerConnection (fun v => (Except.error v : Except JSValue Unit)) [] =
      Except.error JSValue.undefined :=
  (claim_C8_peerConnection_delegates
    (fun v => (Except.error v : Except JSValue Unit)) [] JSValue.undefined).2 rfl

/-- C9: both descriptor factories ignore every argument beyond the first:
a call with extra trailing arguments returns exactly the record of the
call with only the first argument. -/
theorem claim_C9_extra_arguments_ignored (a : JSValue) (rest : List JSValue) :
    CreateRTCSessionDescription (a :: rest) = CreateRTCSessionDescription [a] ∧
    CreateRTCIceCandidate (a :: rest) = CreateRTCIceCandidate [a] := by
  cases a <;>
    simp [CreateRTCSessionDescription, CreateRTCIceCandidate, argAt, JSValue.isObject]

/-- C10: both descriptor factories are deterministic functions of the
presence and values of the recognized fields alone: two object inputs that
agree on those return equal records, whatever other fields they carry (and,
the embedding being a pure function of its argument, independently of any
prior calls). -/
theorem claim_C10_deterministic_in_recognized_fields (s1 s2 i1 i2 : JSFields)
    (ht : objHas s1 "type" = objHas s2 "type")
    (hgt : objGet s1 "type" = objGet s2 "type")
    (hs : objHas s1 "sdp" = objHas s2 "sdp")
    (hgs : objGet s1 "sdp" = objGet s2 "sdp")
    (hc : objHas i1 "candidate" = objHas i2 "candidate")
    (hgc : objGet i1 "candidate" = objGet i2 "candidate")
    (hml : objHas i1 "sdpMLineIndex" = objHas i2 "sdpMLineIndex")
    (hgml : objGet i1 "sdpMLineIndex" = objGet i2 "sdpMLineIndex")
    (hm : objHas i1 "sdpMid" = objHas i2 "sdpMid")
    (hgm : objGet i1 "sdpMid" = objGet i2 "sdpMid") :
    CreateRTCSessionDescription [JSValue.object s1] =
      CreateRTCSessionDescription [JSValue.object s2] ∧
    CreateRTCIceCandidate [JSValue.object i1] =
      CreateRTCIceCandidate [JSValue.object i2] := by
  constructor
  · rw [sessionDescription_cons_object, sessionDescription_cons_object,
      ht, hgt, hs, hgs]
  · rw [iceCandidate_cons_object, iceCandidate_cons_object,
      hc, hgc, hml, hgml, hm, hgm]

/-- Witness for C10: inputs differing only in an unrecognized `junk` field
produce equal records. -/
theorem claim_C10_witness :
    objHas ([("type", JSValue.string "offer"), ("junk", JSValue.number 1)] : JSFields) "type" =
      objHas ([("type", JSValue.string "offer")] : JSFields) "type" ∧
    objGet [("type", JSValue.string "offer"), ("junk", JSValue.number 1)] "type" =
      objGet [("type", JSValue.string "offer")] "type" ∧
    (CreateRTCSessionDescription
        [JSValue.object [("type", JSValue.string "offer"), ("junk", JSValue.number 1)]] =
      CreateRTCSessionDescription [JSValue.object [("type", JSValue.string "offer")]] ∧
     CreateRTCIceCandidate
        [JSValue.object [("sdpMid", JSValue.string "0"), ("junk", JSValue.null)]] =
      CreateRTCIceCandidate [JSValue.object [("sdpMid", JSValue.string "0")]]) :=
  ⟨rfl, rfl,
   claim_C10_deterministic_in_recognized_fields
     [("type", JSValue.string "offer"), ("junk", JSValue.number 1)]
     [("type", JSValue.string "offer")]
     [("sdpMid", JSValue.string "0"), ("junk", JSValue.null)]
     [("sdpMid", JSValue.string "0")]
     rfl rfl rfl rfl rfl rfl rfl rfl rfl rfl⟩

end WebRTCBinding
